import Mathlib

/-!
Shallow embedding of the core of the fiverr-gig-optimizer repository:
the retrying HTTP client (src/api_client.py), the time-bounded cache
(src/cache_manager.py) and the JSON-backed state store
(src/state_manager.py), together with theorems settling the spec claims.

Durations and timestamps are modelled as rationals (seconds); random
jitter is modelled as an oracle function from the attempt index to a
rational. JSON values are modelled by an inductive type; the Python
json round-trip is the identity on this type.
-/

/-- A JSON value, as produced by json.load / consumed by json.dump.
Objects keep their field order, like Python dicts. -/
inductive JValue : Type where
  | null : JValue
  | bool (b : Bool) : JValue
  | num (n : Int) : JValue
  | str (s : String) : JValue
  | arr (xs : List JValue) : JValue
  | obj (fields : List (String × JValue)) : JValue

mutual

/-- Python equality (==) on JSON values. -/
def JValue.beq : JValue → JValue → Bool
  | JValue.null, JValue.null => true
  | JValue.bool a, JValue.bool b => a == b
  | JValue.num a, JValue.num b => a == b
  | JValue.str a, JValue.str b => a == b
  | JValue.arr xs, JValue.arr ys => JValue.beqList xs ys
  | JValue.obj fs, JValue.obj gs => JValue.beqFields fs gs
  | _, _ => false

/-- Python equality on JSON arrays: elementwise. -/
def JValue.beqList : List JValue → List JValue → Bool
  | [], [] => true
  | x :: xs, y :: ys => JValue.beq x y && JValue.beqList xs ys
  | _, _ => false

/-- Python equality on JSON objects, field by field in order. -/
def JValue.beqFields : List (String × JValue) → List (String × JValue) → Bool
  | [], [] => true
  | (k, v) :: fs, (l, w) :: gs => k == l && JValue.beq v w && JValue.beqFields fs gs
  | _, _ => false

end

instance : BEq JValue := ⟨JValue.beq⟩

/- ===================== Resilient HTTP client =====================
Embedding of src/api_client.py. -/

/-- Configuration of APIClient.__init__ (src/api_client.py lines 11-31). -/
structure RetryPolicy where
  base_retries : Nat
  base_delay : ℚ
  max_delay : ℚ
  rate_limit_delay : ℚ
deriving Repr, DecidableEq

/-- An exception raised by one underlying attempt of get/post:
requests.exceptions.HTTPError carrying the response status (raised by
raise_for_status), a caller-misuse error such as a malformed URL
(requests.exceptions.MissingSchema and friends), or a transport error
(requests.exceptions.ConnectionError and friends). Python's
`raise None` reached when base_retries = 0 is modelled by raisedNone. -/
inductive ReqError : Type where
  | httpError (status : Nat) : ReqError
  | callerMisuse (msg : String) : ReqError
  | transportError (msg : String) : ReqError
  | raisedNone : ReqError
deriving Repr, DecidableEq

/-- The 429 test of line 44 of src/api_client.py:
`e.response.status_code == 429` inside `except requests.exceptions.HTTPError`. -/
def ReqError.is429 : ReqError → Bool
  | ReqError.httpError s => s == 429
  | _ => false

/-- One failed attempt of the retry loop and the sleeps it causes:
the exception it raised, the extra rate-limit sleep (line 45) when the
exception was an HTTPError with status 429, and the backoff sleep of
line 52 performed with the freshly updated delay of line 51. -/
structure FailStep : Type where
  err : ReqError
  rateSleep : Option ℚ
  backoffSleep : ℚ
deriving Repr, DecidableEq

/-- Observable outcome of one call through the _with_retry wrapper:
how many times the wrapped function ran, the failed attempts with
their sleeps in order, and the returned value or raised exception. -/
structure RetryTrace (V : Type) : Type where
  attemptsMade : Nat
  failSteps : List FailStep
  result : Except ReqError V
deriving Repr

/-- The loop body of _with_retry (src/api_client.py lines 36-54):
idx is the index of the next attempt, remaining the attempts left of
`for attempt in range(self.base_retries)`, delay the current backoff
delay, lastExc the `last_exception` variable, acc the failed attempts
so far (reversed). On success the wrapped value is returned at once;
on failure the exception is recorded, a 429 adds a rate-limit sleep,
then `delay = min(delay * 2 + random.uniform(0, 1), self.max_delay)`
and `time.sleep(delay)`. After the loop `raise last_exception`. -/
def withRetryGo {V : Type} (p : RetryPolicy) (attempt : Nat → Except ReqError V)
    (jitter : Nat → ℚ) :
    Nat → Nat → ℚ → Option ReqError → List FailStep → RetryTrace V
  | idx, 0, _, lastExc, acc =>
    { attemptsMade := idx
      failSteps := acc.reverse
      result := match lastExc with
        | some e => Except.error e
        | none => Except.error ReqError.raisedNone }
  | idx, r + 1, delay, _, acc =>
    match attempt idx with
    | Except.ok v =>
      { attemptsMade := idx + 1, failSteps := acc.reverse, result := Except.ok v }
    | Except.error e =>
      let rs : Option ℚ := if e.is429 then some p.rate_limit_delay else none
      let nd : ℚ := min (delay * 2 + jitter idx) p.max_delay
      withRetryGo p attempt jitter (idx + 1) r nd (some e)
        ({ err := e, rateSleep := rs, backoffSleep := nd } :: acc)

/-- A call to a function wrapped by APIClient._with_retry: the loop of
lines 40-52 started with `delay = self.base_delay` and
`last_exception = None`. -/
def withRetry {V : Type} (p : RetryPolicy) (attempt : Nat → Except ReqError V)
    (jitter : Nat → ℚ) : RetryTrace V :=
  withRetryGo p attempt jitter 0 p.base_retries p.base_delay none []

/-- An HTTP response as seen by the client. -/
structure HttpResponse : Type where
  status : Nat
  body : String
deriving Repr, DecidableEq

/-- Response.raise_for_status of the requests library: raises
HTTPError exactly for 4xx and 5xx status codes. -/
def raise_for_status (r : HttpResponse) : Except ReqError HttpResponse :=
  if 400 ≤ r.status ∧ r.status < 600 then Except.error (ReqError.httpError r.status)
  else Except.ok r

/-- APIClient.get (src/api_client.py lines 57-89): the session GET is
an oracle giving each attempt's transport outcome; a received response
goes through raise_for_status; the whole is wrapped by _with_retry. -/
def APIClient.get (p : RetryPolicy)
    (transport : Nat → Except ReqError HttpResponse) (jitter : Nat → ℚ) :
    RetryTrace HttpResponse :=
  withRetry p (fun i => (transport i).bind raise_for_status) jitter

/-- APIClient.post (src/api_client.py lines 91-112): same wrapping as
APIClient.get, over the session POST. -/
def APIClient.post (p : RetryPolicy)
    (transport : Nat → Except ReqError HttpResponse) (jitter : Nat → ℚ) :
    RetryTrace HttpResponse :=
  withRetry p (fun i => (transport i).bind raise_for_status) jitter

/-- The spec's backoff schedule (§4.1): delay starts at baseDelay and
after the k-th failed attempt becomes
min (delay * 2 + uniformRandom 0 1) maxDelay; specBackoff p jitter k
is the backoff sleep after the k-th failed attempt (0-indexed). -/
def specBackoff (p : RetryPolicy) (jitter : Nat → ℚ) : Nat → ℚ
  | 0 => min (p.base_delay * 2 + jitter 0) p.max_delay
  | k + 1 => min (specBackoff p jitter k * 2 + jitter (k + 1)) p.max_delay

/-- The failed attempts produced by the loop from attempt index idx
with r attempts left and current delay value, when every attempt
fails with the exception given by errs. -/
def stepsFrom (p : RetryPolicy) (jitter : Nat → ℚ) (errs : Nat → ReqError) :
    Nat → Nat → ℚ → List FailStep
  | _, 0, _ => []
  | idx, r + 1, delay =>
    let nd : ℚ := min (delay * 2 + jitter idx) p.max_delay
    { err := errs idx
      rateSleep := if (errs idx).is429 then some p.rate_limit_delay else none
      backoffSleep := nd } :: stepsFrom p jitter errs (idx + 1) r nd

/-- The value of the delay variable just before the k-th failed
attempt updates it: baseDelay before the first update, afterwards the
previous backoff value. -/
def specDelayBefore (p : RetryPolicy) (jitter : Nat → ℚ) : Nat → ℚ
  | 0 => p.base_delay
  | k + 1 => specBackoff p jitter k

/-- Characterization of the retry loop when every remaining attempt
fails: it runs all remaining attempts, records one FailStep per
attempt, and ends by raising the last exception. -/
theorem withRetryGo_allFail {V : Type} (p : RetryPolicy)
    (attempt : Nat → Except ReqError V) (jitter : Nat → ℚ) (errs : Nat → ReqError) :
    ∀ (r idx : Nat) (delay : ℚ) (e0 : ReqError) (acc : List FailStep),
    (∀ j, idx ≤ j → j < idx + r → attempt j = Except.error (errs j)) →
    withRetryGo p attempt jitter idx r delay (some e0) acc =
      { attemptsMade := idx + r
        failSteps := acc.reverse ++ stepsFrom p jitter errs idx r delay
        result := Except.error (if r = 0 then e0 else errs (idx + r - 1)) } := by
  intro r
  induction r with
  | zero =>
    intro idx delay e0 acc _
    simp [withRetryGo, stepsFrom]
  | succ m ih =>
    intro idx delay e0 acc hf
    have hidx : attempt idx = Except.error (errs idx) := hf idx (le_refl idx) (by omega)
    have hrec := ih (idx + 1) (min (delay * 2 + jitter idx) p.max_delay) (errs idx)
      ({ err := errs idx
         rateSleep := if (errs idx).is429 then some p.rate_limit_delay else none
         backoffSleep := min (delay * 2 + jitter idx) p.max_delay } :: acc)
      (fun j h1 h2 => hf j (Nat.le_of_succ_le h1) (by omega))
    simp only [withRetryGo, hidx]
    rw [hrec, RetryTrace.mk.injEq]
    refine ⟨by omega, ?_, ?_⟩
    · simp [stepsFrom]
    · rw [if_neg (Nat.succ_ne_zero m)]
      rcases m with _ | m
      · simp
      · rw [if_neg (Nat.succ_ne_zero m)]
        congr 2
        omega

/- ===================== Time-bounded cache =====================
Embedding of src/cache_manager.py. -/

/-- One cache file's parsed content, as written by CacheManager.set
(src/cache_manager.py lines 55-74): the write timestamp and the
stored payload. -/
structure CacheEntry : Type where
  timestamp : ℚ
  data : JValue

/-- The cache directory contents: which parsed entry, if any, each
file path holds. A file that is absent or unparsable is none (the
source turns read failures into a miss). -/
def CacheFS : Type := String → Option CacheEntry

/-- CacheManager configuration (src/cache_manager.py lines 10-13). -/
structure CacheManager : Type where
  cache_dir : String

/-- CacheManager._get_cache_key (lines 20-22): a flat file path under
cache_dir, path separators in the key replaced by underscores. -/
def CacheManager.get_cache_key (cm : CacheManager) (key : String) : String :=
  cm.cache_dir ++ "/" ++ (key.replace "/" "_") ++ ".json"

/-- CacheManager.get (lines 24-53). The staleness guard in the source
is `if max_age:` — Python truthiness — so the check is skipped both
when max_age is None and when it is a zero timedelta; a present entry
is then returned regardless of age. -/
def CacheManager.get (cm : CacheManager) (fs : CacheFS) (now : ℚ)
    (key : String) (max_age : Option ℚ) : Option JValue :=
  match fs (cm.get_cache_key key) with
  | none => none
  | some entry =>
    match max_age with
    | none => some entry.data
    | some ma =>
      if ma ≠ 0 then
        if now - entry.timestamp > ma then none
        else some entry.data
      else some entry.data

/-- CacheManager.set (lines 55-74): overwrite the key's file with the
payload stamped with the current time (write modelled as succeeding;
on an I/O failure the source leaves the directory unchanged). -/
def CacheManager.set (cm : CacheManager) (fs : CacheFS) (now : ℚ)
    (key : String) (data : JValue) : CacheFS :=
  fun name =>
    if name = cm.get_cache_key key then some { timestamp := now, data := data }
    else fs name

/- ===================== Durable state store =====================
Embedding of src/state_manager.py. -/

/-- A Python exception raised by subscripting the loaded state:
KeyError for a missing dict key, TypeError for subscripting or
membership-testing a value of the wrong type. -/
inductive PyError : Type where
  | keyError (k : String) : PyError
  | typeError : PyError
deriving Repr, DecidableEq

/-- The on-disk app_state.json: missing, unparsable, or parsed JSON. -/
inductive DiskFile : Type where
  | missing : DiskFile
  | malformed : DiskFile
  | content (j : JValue) : DiskFile

/-- The default empty document used by StateManager._init_state and
as the fallback of _load_state (src/state_manager.py lines 21-29,
35-49). -/
def defaultState : JValue :=
  JValue.obj [("favorites", JValue.arr []),
              ("saved_gigs", JValue.obj []),
              ("analysis_history", JValue.obj []),
              ("generated_gigs", JValue.obj [])]

/-- StateManager._load_state (lines 30-49): the parsed file content
when the file exists and parses; otherwise the default document
(errors swallowed, logged only). -/
def load_state : DiskFile → JValue
  | DiskFile.missing => defaultState
  | DiskFile.malformed => defaultState
  | DiskFile.content j => j

/-- StateManager.save_state (lines 51-57): whole-document rewrite of
the state file (modelled with the write succeeding). -/
def save_state (j : JValue) : DiskFile := DiskFile.content j

/-- Python state[k]: the value under k for an object that has the key,
KeyError for an object without it, TypeError when the loaded document
is not an object. -/
def JValue.getItem : JValue → String → Except PyError JValue
  | JValue.obj fields, k =>
    match fields.lookup k with
    | some v => Except.ok v
    | none => Except.error (PyError.keyError k)
  | _, _ => Except.error PyError.typeError

/-- Python state.get(k, dflt) on the loaded document. -/
def JValue.getDefault : JValue → String → JValue → Except PyError JValue
  | JValue.obj fields, k, dflt => Except.ok ((fields.lookup k).getD dflt)
  | _, _, _ => Except.error PyError.typeError

/-- Python d[k] = v on an object's field list: an existing key keeps
its position and gets the new value, a new key is appended — Python
dict insertion-order semantics. -/
def setField : List (String × JValue) → String → JValue → List (String × JValue)
  | [], k, v => [(k, v)]
  | (k1, v1) :: fs, k, v =>
    if k1 = k then (k1, v) :: fs else (k1, v1) :: setField fs k v

/-- In-place mutation of one top-level entry of the loaded document,
as done between _load_state and save_state. -/
def JValue.setKey : JValue → String → JValue → JValue
  | JValue.obj fields, k, v => JValue.obj (setField fields k v)
  | j, _, _ => j

/-- StateManager.get_favorites (lines 59-61): read the file fresh and
take the favorites entry, empty list when the key is absent. -/
def get_favorites (d : DiskFile) : Except PyError JValue :=
  (load_state d).getDefault "favorites" (JValue.arr [])

/-- StateManager.get_saved_gigs (lines 77-79). -/
def get_saved_gigs (d : DiskFile) : Except PyError JValue :=
  (load_state d).getDefault "saved_gigs" (JValue.obj [])

/-- StateManager.get_analysis_history (lines 94-96). -/
def get_analysis_history (d : DiskFile) : Except PyError JValue :=
  (load_state d).getDefault "analysis_history" (JValue.obj [])

/-- StateManager.get_generated_gigs (lines 106-108). -/
def get_generated_gigs (d : DiskFile) : Except PyError JValue :=
  (load_state d).getDefault "generated_gigs" (JValue.obj [])

/-- StateManager.add_to_favorites (lines 63-68): append the keyword
unless already present; the membership test subscripts
state["favorites"] first, so a document without the key raises
KeyError. A non-list favorites value is modelled as TypeError (never
reached by the claims). -/
def add_to_favorites (d : DiskFile) (keyword : String) : Except PyError DiskFile := do
  let state := load_state d
  let favs ← state.getItem "favorites"
  match favs with
  | JValue.arr xs =>
    if xs.contains (JValue.str keyword) then pure d
    else pure (save_state (state.setKey "favorites"
      (JValue.arr (xs ++ [JValue.str keyword]))))
  | _ => Except.error PyError.typeError

/-- StateManager.remove_from_favorites (lines 70-75): list.remove
drops the first occurrence; absent keyword is a no-op without a
rewrite. -/
def remove_from_favorites (d : DiskFile) (keyword : String) : Except PyError DiskFile := do
  let state := load_state d
  let favs ← state.getItem "favorites"
  match favs with
  | JValue.arr xs =>
    if xs.contains (JValue.str keyword) then
      pure (save_state (state.setKey "favorites"
        (JValue.arr (xs.erase (JValue.str keyword)))))
    else pure d
  | _ => Except.error PyError.typeError

/-- StateManager.save_gig (lines 81-85): state["saved_gigs"][keyword]
= gig_data, then whole-document rewrite. -/
def save_gig (d : DiskFile) (keyword : String) (gig_data : JValue) :
    Except PyError DiskFile := do
  let state := load_state d
  let sg ← state.getItem "saved_gigs"
  match sg with
  | JValue.obj fields =>
    pure (save_state (state.setKey "saved_gigs"
      (JValue.obj (setField fields keyword gig_data))))
  | _ => Except.error PyError.typeError

/-- StateManager.add_to_history (lines 100-104): upsert into
state["analysis_history"]. -/
def add_to_history (d : DiskFile) (keyword : String) (data : JValue) :
    Except PyError DiskFile := do
  let state := load_state d
  let ah ← state.getItem "analysis_history"
  match ah with
  | JValue.obj fields =>
    pure (save_state (state.setKey "analysis_history"
      (JValue.obj (setField fields keyword data))))
  | _ => Except.error PyError.typeError

/-- StateManager.add_generated_gig (lines 110-114): upsert into
state["generated_gigs"]. -/
def add_generated_gig (d : DiskFile) (keyword : String) (gig_data : JValue) :
    Except PyError DiskFile := do
  let state := load_state d
  let gg ← state.getItem "generated_gigs"
  match gg with
  | JValue.obj fields =>
    pure (save_state (state.setKey "generated_gigs"
      (JValue.obj (setField fields keyword gig_data))))
  | _ => Except.error PyError.typeError

/-- A document of the four-collection shape of spec §6: favorites a
list of strings, the other three collections string-keyed mappings. -/
structure StateDoc : Type where
  favorites : List String
  saved_gigs : List (String × JValue)
  analysis_history : List (String × JValue)
  generated_gigs : List (String × JValue)

/-- The JSON document of a StateDoc, in the on-disk shape of spec §6. -/
def StateDoc.toJValue (sd : StateDoc) : JValue :=
  JValue.obj [("favorites", JValue.arr (sd.favorites.map JValue.str)),
              ("saved_gigs", JValue.obj sd.saved_gigs),
              ("analysis_history", JValue.obj sd.analysis_history),
              ("generated_gigs", JValue.obj sd.generated_gigs)]

/-- Occurrences of a keyword in the favorites collection as read back
through get_favorites; none when the collection is not a list. -/
def favCount (d : DiskFile) (keyword : String) : Option Nat :=
  match get_favorites d with
  | Except.ok (JValue.arr xs) => some (xs.count (JValue.str keyword))
  | _ => none

/-- A hand-crafted on-disk state whose favorites already hold the same
keyword twice: valid JSON of the §6 shape, but not one the manager
itself would write. -/
def dupFavState : DiskFile :=
  DiskFile.content
    (JValue.obj [("favorites", JValue.arr [JValue.str "logo design", JValue.str "logo design"]),
                 ("saved_gigs", JValue.obj []),
                 ("analysis_history", JValue.obj []),
                 ("generated_gigs", JValue.obj [])])

/-- Updating the delay state once yields the next spec backoff value. -/
theorem specDelayBefore_step (p : RetryPolicy) (jitter : Nat → ℚ) (k : Nat) :
    min (specDelayBefore p jitter k * 2 + jitter k) p.max_delay
      = specBackoff p jitter k := by
  cases k with
  | zero => rfl
  | succ m => rfl

/-- Every backoff sleep recorded by the loop is capped by max_delay. -/
theorem stepsFrom_backoff_le (p : RetryPolicy) (jitter : Nat → ℚ) (errs : Nat → ReqError) :
    ∀ (r idx : Nat) (delay : ℚ) (st : FailStep),
    st ∈ stepsFrom p jitter errs idx r delay → st.backoffSleep ≤ p.max_delay := by
  intro r
  induction r with
  | zero =>
    intro idx delay st h
    simp [stepsFrom] at h
  | succ m ih =>
    intro idx delay st h
    rw [stepsFrom] at h
    rcases List.mem_cons.mp h with h1 | h2
    · subst h1
      exact min_le_right _ _
    · exact ih (idx + 1) _ st h2

/-- Started from the correct delay state, the loop's backoff sleeps
are exactly the spec's backoff schedule. -/
theorem stepsFrom_map_backoff (p : RetryPolicy) (jitter : Nat → ℚ) (errs : Nat → ReqError) :
    ∀ (r k : Nat),
    (stepsFrom p jitter errs k r (specDelayBefore p jitter k)).map FailStep.backoffSleep
      = (List.range' k r).map (specBackoff p jitter) := by
  intro r
  induction r with
  | zero =>
    intro k
    simp [stepsFrom]
  | succ m ih =>
    intro k
    rw [stepsFrom, List.range'_succ]
    simp only [List.map_cons, specDelayBefore_step]
    refine congrArg (List.cons (specBackoff p jitter k)) ?_
    have h := ih (k + 1)
    simpa [specDelayBefore] using h

/-- The k-th failed attempt recorded by the loop, started from the
correct delay state: its exception, extra rate-limit sleep and backoff
sleep. -/
theorem stepsFrom_getElem (p : RetryPolicy) (jitter : Nat → ℚ) (errs : Nat → ReqError) :
    ∀ (r k idx : Nat), k < r →
    (stepsFrom p jitter errs idx r (specDelayBefore p jitter idx))[k]?
      = some { err := errs (idx + k)
               rateSleep := if (errs (idx + k)).is429 then some p.rate_limit_delay else none
               backoffSleep := specBackoff p jitter (idx + k) } := by
  intro r
  induction r with
  | zero =>
    intro k idx hk
    omega
  | succ m ih =>
    intro k idx hk
    rw [stepsFrom]
    simp only [specDelayBefore_step]
    cases k with
    | zero =>
      simp
    | succ j =>
      have h := ih j (idx + 1) (by omega)
      rw [List.getElem?_cons_succ]
      have harg : idx + 1 + j = idx + (j + 1) := by omega
      rw [harg] at h
      simpa [specDelayBefore] using h

/-- A _with_retry call whose every attempt fails runs all
base_retries attempts, records one FailStep per attempt starting from
the baseDelay state, and raises the last exception. -/
theorem withRetry_allFail {V : Type} (p : RetryPolicy) (attempt : Nat → Except ReqError V)
    (jitter : Nat → ℚ) (errs : Nat → ReqError) (m : Nat)
    (hn : p.base_retries = m + 1)
    (hf : ∀ i, i < m + 1 → attempt i = Except.error (errs i)) :
    withRetry p attempt jitter =
      { attemptsMade := m + 1
        failSteps := stepsFrom p jitter errs 0 (m + 1) p.base_delay
        result := Except.error (errs m) } := by
  have h0 : attempt 0 = Except.error (errs 0) := hf 0 (by omega)
  have hrec := withRetryGo_allFail p attempt jitter errs m 1
    (min (p.base_delay * 2 + jitter 0) p.max_delay) (errs 0)
    [{ err := errs 0
       rateSleep := if (errs 0).is429 then some p.rate_limit_delay else none
       backoffSleep := min (p.base_delay * 2 + jitter 0) p.max_delay }]
    (fun j h1 h2 => hf j (by omega))
  unfold withRetry
  rw [hn]
  simp only [withRetryGo, h0]
  rw [hrec, RetryTrace.mk.injEq]
  refine ⟨by omega, ?_, ?_⟩
  · simp [stepsFrom]
  · rcases m with _ | m
    · simp
    · rw [if_neg (Nat.succ_ne_zero m)]
      congr 2
      omega

/-- C1: with maxAttempts = n ≥ 1, a call whose underlying request
fails on every attempt performs exactly n attempts of the underlying
request and then raises an error: no further attempts, and the final
failure is not swallowed. -/
theorem claim_C1_retry_exhausts_attempts {V : Type} (p : RetryPolicy)
    (attempt : Nat → Except ReqError V) (jitter : Nat → ℚ) (errs : Nat → ReqError)
    (n : Nat) (hn : p.base_retries = n) (h1 : 1 ≤ n)
    (hf : ∀ i, i < n → attempt i = Except.error (errs i)) :
    (withRetry p attempt jitter).attemptsMade = n ∧
    (withRetry p attempt jitter).result.isOk = false := by
  rcases n with _ | m
  · omega
  · rw [withRetry_allFail p attempt jitter errs m hn hf]
    exact ⟨rfl, rfl⟩

/-- C1 witness: a client with 3 attempts, a transport that always
fails: 3 attempts are made and the call ends in an error. -/
theorem claim_C1_retry_exhausts_attempts_witness :
    (withRetry { base_retries := 3, base_delay := 1, max_delay := 10, rate_limit_delay := 1 }
      (fun _ => (Except.error (ReqError.transportError "connection reset") : Except ReqError Unit))
      (fun _ => 0)).attemptsMade = 3 ∧
    (withRetry { base_retries := 3, base_delay := 1, max_delay := 10, rate_limit_delay := 1 }
      (fun _ => (Except.error (ReqError.transportError "connection reset") : Except ReqError Unit))
      (fun _ => 0)).result.isOk = false :=
  claim_C1_retry_exhausts_attempts _ _ _ (fun _ => ReqError.transportError "connection reset")
    3 rfl (by omega) (fun _ _ => rfl)

/-- C2: when all maxAttempts attempts have failed, the call fails with
exactly the last underlying failure, so the caller can inspect it. -/
theorem claim_C2_last_failure_surfaced {V : Type} (p : RetryPolicy)
    (attempt : Nat → Except ReqError V) (jitter : Nat → ℚ) (errs : Nat → ReqError)
    (n : Nat) (hn : p.base_retries = n) (h1 : 1 ≤ n)
    (hf : ∀ i, i < n → attempt i = Except.error (errs i)) :
    (withRetry p attempt jitter).result = Except.error (errs (n - 1)) := by
  rcases n with _ | m
  · omega
  · rw [withRetry_allFail p attempt jitter errs m hn hf]
    simp

/-- C2 witness: two distinct failures; the raised error is the second
(last) one. -/
theorem claim_C2_last_failure_surfaced_witness :
    (withRetry { base_retries := 2, base_delay := 1, max_delay := 10, rate_limit_delay := 1 }
      (fun i => (Except.error (if i = 0 then ReqError.httpError 500
        else ReqError.transportError "timeout") : Except ReqError Unit))
      (fun _ => 0)).result = Except.error (ReqError.transportError "timeout") :=
  claim_C2_last_failure_surfaced _ _ _
    (fun i => if i = 0 then ReqError.httpError 500 else ReqError.transportError "timeout")
    2 rfl (by omega) (fun _ _ => rfl)

/-- C3 counterexample: a GET whose every attempt raises a
caller-misuse error (malformed URL) is NOT surfaced on the first
attempt: with maxAttempts = 3 the underlying request runs 3 times,
because the decorator's `except Exception` catches and retries every
exception alike. -/
theorem claim_C3_counterexample :
    (APIClient.get { base_retries := 3, base_delay := 1, max_delay := 10, rate_limit_delay := 1 }
      (fun _ => Except.error (ReqError.callerMisuse "Invalid URL: no scheme supplied"))
      (fun _ => 0)).attemptsMade = 3 ∧
    ¬ (APIClient.get { base_retries := 3, base_delay := 1, max_delay := 10, rate_limit_delay := 1 }
      (fun _ => Except.error (ReqError.callerMisuse "Invalid URL: no scheme supplied"))
      (fun _ => 0)).attemptsMade = 1 := by
  have h3 : (APIClient.get { base_retries := 3, base_delay := 1, max_delay := 10, rate_limit_delay := 1 }
      (fun _ => Except.error (ReqError.callerMisuse "Invalid URL: no scheme supplied"))
      (fun _ => 0)).attemptsMade = 3 := rfl
  refine ⟨h3, ?_⟩
  simp only [h3]
  omega

/-- C3 amended: a caller-side misuse error (e.g. malformed URL) is
retried exactly like any other failure: with maxAttempts = n ≥ 1 and
every attempt failing with a caller-misuse error, the call performs
all n attempts and only then raises that error (the last one). -/
theorem claim_C3_misuse_retried_like_any_failure {V : Type} (p : RetryPolicy)
    (attempt : Nat → Except ReqError V) (jitter : Nat → ℚ) (msgs : Nat → String)
    (n : Nat) (hn : p.base_retries = n) (h1 : 1 ≤ n)
    (hf : ∀ i, i < n → attempt i = Except.error (ReqError.callerMisuse (msgs i))) :
    (withRetry p attempt jitter).attemptsMade = n ∧
    (withRetry p attempt jitter).result
      = Except.error (ReqError.callerMisuse (msgs (n - 1))) := by
  rcases n with _ | m
  · omega
  · rw [withRetry_allFail p attempt jitter (fun i => ReqError.callerMisuse (msgs i)) m hn hf]
    simp

/-- C3 amended witness: 3 attempts all failing with the same malformed
URL error; the call makes 3 attempts and raises that error. -/
theorem claim_C3_misuse_retried_like_any_failure_witness :
    (withRetry { base_retries := 3, base_delay := 1, max_delay := 10, rate_limit_delay := 1 }
      (fun _ => (Except.error (ReqError.callerMisuse "Invalid URL") : Except ReqError Unit))
      (fun _ => 0)).attemptsMade = 3 ∧
    (withRetry { base_retries := 3, base_delay := 1, max_delay := 10, rate_limit_delay := 1 }
      (fun _ => (Except.error (ReqError.callerMisuse "Invalid URL") : Except ReqError Unit))
      (fun _ => 0)).result = Except.error (ReqError.callerMisuse "Invalid URL") :=
  claim_C3_misuse_retried_like_any_failure _ _ _ (fun _ => "Invalid URL")
    3 rfl (by omega) (fun _ _ => rfl)

/-- C4: in a failing run the backoff sleeps follow exactly the spec
schedule: delay starts at baseDelay and after each failed attempt is
updated to min (delay * 2 + jitter) maxDelay before being slept; in
particular no single backoff sleep exceeds maxDelay. -/
theorem claim_C4_backoff_schedule_and_cap {V : Type} (p : RetryPolicy)
    (attempt : Nat → Except ReqError V) (jitter : Nat → ℚ) (errs : Nat → ReqError)
    (n : Nat) (hn : p.base_retries = n) (h1 : 1 ≤ n)
    (hf : ∀ i, i < n → attempt i = Except.error (errs i)) :
    ((withRetry p attempt jitter).failSteps.map FailStep.backoffSleep
      = (List.range n).map (specBackoff p jitter)) ∧
    (∀ st ∈ (withRetry p attempt jitter).failSteps, st.backoffSleep ≤ p.max_delay) := by
  rcases n with _ | m
  · omega
  · rw [withRetry_allFail p attempt jitter errs m hn hf]
    constructor
    · have h := stepsFrom_map_backoff p jitter errs (m + 1) 0
      simp only [specDelayBefore] at h
      rw [h, List.range_eq_range']
    · intro st hst
      exact stepsFrom_backoff_le p jitter errs (m + 1) 0 p.base_delay st hst

/-- C4 witness: the 3-attempt failing run's backoff sleeps equal the
spec schedule at the same inputs. -/
theorem claim_C4_backoff_schedule_and_cap_witness :
    (withRetry { base_retries := 3, base_delay := 1, max_delay := 10, rate_limit_delay := 1 }
      (fun _ => (Except.error (ReqError.httpError 500) : Except ReqError Unit))
      (fun _ => 0)).failSteps.map FailStep.backoffSleep
      = (List.range 3).map
          (specBackoff { base_retries := 3, base_delay := 1, max_delay := 10, rate_limit_delay := 1 }
            (fun _ => 0)) :=
  (claim_C4_backoff_schedule_and_cap _ _ _ (fun _ => ReqError.httpError 500)
    3 rfl (by omega) (fun _ _ => rfl)).1

/-- C5: in a failing run, any attempt that failed with HTTP status 429
causes a sleep of rateLimitDelay in addition to (and on top of) the
standard computed backoff sleep before the next attempt. -/
theorem claim_C5_rate_limit_extra_sleep {V : Type} (p : RetryPolicy)
    (attempt : Nat → Except ReqError V) (jitter : Nat → ℚ) (errs : Nat → ReqError)
    (n : Nat) (hn : p.base_retries = n) (h1 : 1 ≤ n)
    (hf : ∀ i, i < n → attempt i = Except.error (errs i))
    (k : Nat) (hk : k < n) (h429 : errs k = ReqError.httpError 429) :
    ((withRetry p attempt jitter).failSteps[k]?).map FailStep.err
      = some (ReqError.httpError 429) ∧
    ((withRetry p attempt jitter).failSteps[k]?).map FailStep.rateSleep
      = some (some p.rate_limit_delay) ∧
    ((withRetry p attempt jitter).failSteps[k]?).map FailStep.backoffSleep
      = some (specBackoff p jitter k) := by
  rcases n with _ | m
  · omega
  · rw [withRetry_allFail p attempt jitter errs m hn hf]
    have h := stepsFrom_getElem p jitter errs (m + 1) k 0 hk
    simp only [specDelayBefore, Nat.zero_add] at h
    simp [h, h429, ReqError.is429]

/-- C5 witness: second attempt fails with 429; its recorded step has
the extra rateLimitDelay sleep on top of the scheduled backoff. -/
theorem claim_C5_rate_limit_extra_sleep_witness :
    ((withRetry { base_retries := 3, base_delay := 1, max_delay := 10, rate_limit_delay := 1 }
      (fun i => (Except.error (if i = 1 then ReqError.httpError 429 else ReqError.httpError 500)
        : Except ReqError Unit))
      (fun _ => 0)).failSteps[1]?).map FailStep.rateSleep = some (some 1) :=
  (claim_C5_rate_limit_extra_sleep _ _ _
    (fun i => if i = 1 then ReqError.httpError 429 else ReqError.httpError 500)
    3 rfl (by omega) (fun _ _ => rfl) 1 (by omega) rfl).2.1

/-- C6 counterexample: with maxAge = 0 the claim demands a miss for
any entry older than 0 seconds; but the source's `if max_age:`
truthiness guard treats a zero max_age like None and skips the
staleness check, so an entry written at time 0 and read at time 5 is
returned, not a miss. -/
theorem claim_C6_counterexample :
    CacheManager.get { cache_dir := ".cache" }
      (CacheManager.set { cache_dir := ".cache" } (fun _ => none) 0 "scrape" (JValue.str "v"))
      5 "scrape" (some 0) = some (JValue.str "v") ∧
    (5 : ℚ) - 0 > 0 := by
  constructor
  · simp [CacheManager.get, CacheManager.set]
  · norm_num

/-- C6 amended: for every strictly positive maxAge, cache.get returns
a miss when no entry exists for the key, a miss once the elapsed time
since the write exceeds maxAge, and the cached payload while the
elapsed time is at most maxAge. (At maxAge = 0 the staleness check is
skipped by the source's truthiness guard — counterexample above.) -/
theorem claim_C6_expiry_for_positive_max_age (cm : CacheManager) (fs : CacheFS)
    (now : ℚ) (key : String) (ma : ℚ) (hma : 0 < ma) :
    (fs (cm.get_cache_key key) = none → cm.get fs now key (some ma) = none) ∧
    (∀ entry, fs (cm.get_cache_key key) = some entry →
      (now - entry.timestamp > ma → cm.get fs now key (some ma) = none) ∧
      (now - entry.timestamp ≤ ma → cm.get fs now key (some ma) = some entry.data)) := by
  have hne : ma ≠ 0 := ne_of_gt hma
  constructor
  · intro h
    simp [CacheManager.get, h]
  · intro entry h
    constructor
    · intro hstale
      simp [CacheManager.get, h, hne, hstale]
    · intro hfresh
      simp [CacheManager.get, h, hne, not_lt.mpr hfresh]

/-- C6 witness: entry written at time 0; read at time 10 with
maxAge = 3 it is a miss, read at time 2 with maxAge = 3 it is the
payload. -/
theorem claim_C6_expiry_for_positive_max_age_witness :
    CacheManager.get { cache_dir := ".cache" }
      (CacheManager.set { cache_dir := ".cache" } (fun _ => none) 0 "scrape" (JValue.str "v"))
      10 "scrape" (some 3) = none ∧
    CacheManager.get { cache_dir := ".cache" }
      (CacheManager.set { cache_dir := ".cache" } (fun _ => none) 0 "scrape" (JValue.str "v"))
      2 "scrape" (some 3) = some (JValue.str "v") := by
  constructor
  · exact (((claim_C6_expiry_for_positive_max_age { cache_dir := ".cache" } _ 10 "scrape" 3
      (by norm_num)).2 { timestamp := 0, data := JValue.str "v" })
      (by simp [CacheManager.set])).1 (by norm_num)
  · exact (((claim_C6_expiry_for_positive_max_age { cache_dir := ".cache" } _ 2 "scrape" 3
      (by norm_num)).2 { timestamp := 0, data := JValue.str "v" })
      (by simp [CacheManager.set])).2 (by norm_num)

/-- C7: set immediately followed by get with any maxAge ≥ 0 returns
the value just stored, for every key and JSON value. -/
theorem claim_C7_set_then_get (cm : CacheManager) (fs : CacheFS) (now : ℚ)
    (key : String) (v : JValue) (ma : ℚ) (hma : 0 ≤ ma) :
    cm.get (cm.set fs now key v) now key (some ma) = some v := by
  by_cases h : ma = 0
  · simp [CacheManager.get, CacheManager.set, h]
  · simp [CacheManager.get, CacheManager.set, h]
    exact hma

/-- C7 witness: a concrete set-then-get round trip with a key that
contains a path separator and maxAge = 60. -/
theorem claim_C7_set_then_get_witness :
    CacheManager.get { cache_dir := ".cache" }
      (CacheManager.set { cache_dir := ".cache" } (fun _ => none) 7 "scrape/logo" (JValue.num 42))
      7 "scrape/logo" (some 60) = some (JValue.num 42) :=
  claim_C7_set_then_get { cache_dir := ".cache" } (fun _ => none) 7 "scrape/logo"
    (JValue.num 42) 60 (by norm_num)

/-- Bool membership test on a list of strings agrees with membership. -/
theorem string_contains_iff (l : List String) (a : String) : l.contains a = true ↔ a ∈ l :=
  List.elem_iff

/-- The Python membership test on a JSON string array agrees with the
membership test on the underlying strings. -/
theorem strArr_contains (xs : List String) (kw : String) :
    (xs.map JValue.str).contains (JValue.str kw) = xs.contains kw := by
  induction xs with
  | nil => rfl
  | cons x xs ih =>
    show (JValue.str kw == JValue.str x || (xs.map JValue.str).contains (JValue.str kw))
      = (kw == x || xs.contains kw)
    rw [ih]
    rfl

/-- Counting a string in a JSON string array agrees with counting the
underlying string. -/
theorem strArr_count (xs : List String) (kw : String) :
    (xs.map JValue.str).count (JValue.str kw) = xs.count kw := by
  induction xs with
  | nil => rfl
  | cons x xs ih =>
    rw [List.map_cons, List.count_cons, List.count_cons, ih]
    have hbeq : (JValue.str x == JValue.str kw) = (x == kw) := rfl
    rw [hbeq]

/-- C8: saving a document of the four-collection shape and then
reading all four collections fresh reproduces the document exactly. -/
theorem claim_C8_save_state_round_trip (sd : StateDoc) :
    get_favorites (save_state sd.toJValue)
      = Except.ok (JValue.arr (sd.favorites.map JValue.str)) ∧
    get_saved_gigs (save_state sd.toJValue) = Except.ok (JValue.obj sd.saved_gigs) ∧
    get_analysis_history (save_state sd.toJValue)
      = Except.ok (JValue.obj sd.analysis_history) ∧
    get_generated_gigs (save_state sd.toJValue) = Except.ok (JValue.obj sd.generated_gigs) :=
  ⟨rfl, rfl, rfl, rfl⟩

/-- One add_to_favorites call on a well-shaped document: no-op when
the keyword is already present, else append, in terms of StateDoc. -/
theorem add_to_favorites_statedoc (sd : StateDoc) (kw : String) :
    add_to_favorites (save_state sd.toJValue) kw =
      Except.ok (save_state (StateDoc.toJValue
        { sd with favorites :=
            if sd.favorites.contains kw then sd.favorites else sd.favorites ++ [kw] })) := by
  have hget : (StateDoc.toJValue sd).getItem "favorites"
      = Except.ok (JValue.arr (sd.favorites.map JValue.str)) := rfl
  unfold add_to_favorites
  simp only [load_state, save_state, hget]
  show (if (sd.favorites.map JValue.str).contains (JValue.str kw)
          then pure (DiskFile.content sd.toJValue)
          else pure (save_state ((sd.toJValue).setKey "favorites"
            (JValue.arr (sd.favorites.map JValue.str ++ [JValue.str kw]))))
        : Except PyError DiskFile) = _
  rw [strArr_contains]
  by_cases hc : sd.favorites.contains kw
  · simp only [hc, if_true]
    rfl
  · simp only [hc, if_false, Bool.false_eq_true]
    show Except.ok (save_state ((sd.toJValue).setKey "favorites"
      (JValue.arr (sd.favorites.map JValue.str ++ [JValue.str kw])))) = _
    rw [show sd.favorites.map JValue.str ++ [JValue.str kw]
        = (sd.favorites ++ [kw]).map JValue.str by rw [List.map_append]; rfl]
    rfl

/-- The favorites count read back from a saved well-shaped document is
the count in the document's favorites list. -/
theorem favCount_statedoc (sd : StateDoc) (kw : String) :
    favCount (save_state sd.toJValue) kw = some (sd.favorites.count kw) := by
  have h1 : favCount (save_state sd.toJValue) kw
      = some ((sd.favorites.map JValue.str).count (JValue.str kw)) := rfl
  rw [h1, strArr_count]

/-- C9 counterexample: starting from a hand-crafted state whose
favorites already hold "logo design" twice, two addToFavorites calls
are both no-ops and the favorites still contain the keyword twice —
not exactly once as the claim demands for every starting state. -/
theorem claim_C9_counterexample :
    (add_to_favorites dupFavState "logo design" >>=
      fun d1 => add_to_favorites d1 "logo design") = Except.ok dupFavState ∧
    favCount dupFavState "logo design" = some 2 ∧
    ¬ favCount dupFavState "logo design" = some 1 := by
  refine ⟨rfl, rfl, ?_⟩
  intro h
  have h2 : favCount dupFavState "logo design" = some 2 := rfl
  rw [h2] at h
  have h3 : (2 : Nat) = 1 := Option.some.inj h
  omega

/-- C9 amended: on a document of the §6 shape whose favorites list
does not already hold duplicate copies of kw — in particular any
document the manager itself wrote — addToFavorites kw is idempotent:
two successive calls succeed, the second is a no-op on the first's
result, and the favorites end up containing kw exactly once. -/
theorem claim_C9_add_to_favorites_idempotent (sd : StateDoc) (kw : String)
    (h : sd.favorites.count kw ≤ 1) :
    ∃ d2 : DiskFile,
      (add_to_favorites (save_state sd.toJValue) kw >>=
        fun d1 => add_to_favorites d1 kw) = Except.ok d2 ∧
      add_to_favorites d2 kw = Except.ok d2 ∧
      favCount d2 kw = some 1 := by
  by_cases hc : sd.favorites.contains kw
  · have hmem : kw ∈ sd.favorites := (string_contains_iff _ _).mp hc
    have hcount1 : sd.favorites.count kw = 1 := by
      have hpos : 0 < sd.favorites.count kw := List.count_pos_iff.mpr hmem
      omega
    have hstep : add_to_favorites (save_state sd.toJValue) kw
        = Except.ok (save_state sd.toJValue) := by
      rw [add_to_favorites_statedoc sd kw, if_pos hc]
    refine ⟨save_state sd.toJValue, ?_, hstep, ?_⟩
    · show (add_to_favorites (save_state sd.toJValue) kw >>=
        fun d1 => add_to_favorites d1 kw) = _
      rw [hstep]
      exact hstep
    · rw [favCount_statedoc, hcount1]
  · have hnmem : kw ∉ sd.favorites := by
      intro hmem
      exact hc ((string_contains_iff _ _).mpr hmem)
    have hcount0 : sd.favorites.count kw = 0 := List.count_eq_zero.mpr hnmem
    have hstep1 : add_to_favorites (save_state sd.toJValue) kw
        = Except.ok (save_state (StateDoc.toJValue
            { sd with favorites := sd.favorites ++ [kw] })) := by
      rw [add_to_favorites_statedoc sd kw, if_neg hc]
    have hc2 : ({ sd with favorites := sd.favorites ++ [kw] } : StateDoc).favorites.contains kw
        = true := by
      refine (string_contains_iff _ _).mpr ?_
      simp
    have hstep2 : add_to_favorites (save_state (StateDoc.toJValue
          { sd with favorites := sd.favorites ++ [kw] })) kw
        = Except.ok (save_state (StateDoc.toJValue
            { sd with favorites := sd.favorites ++ [kw] })) := by
      rw [add_to_favorites_statedoc, if_pos hc2]
    refine ⟨save_state (StateDoc.toJValue { sd with favorites := sd.favorites ++ [kw] }),
      ?_, hstep2, ?_⟩
    · show (add_to_favorites (save_state sd.toJValue) kw >>=
        fun d1 => add_to_favorites d1 kw) = _
      rw [hstep1]
      exact hstep2
    · rw [favCount_statedoc]
      show some ((sd.favorites ++ [kw]).count kw) = some 1
      rw [List.count_append, hcount0]
      simp

/-- C9 witness: from the empty document, two addToFavorites calls for
the same keyword leave it in favorites exactly once. -/
theorem claim_C9_add_to_favorites_idempotent_witness :
    ∃ d2 : DiskFile,
      (add_to_favorites (save_state (StateDoc.toJValue
          { favorites := [], saved_gigs := [], analysis_history := [], generated_gigs := [] }))
        "logo design" >>= fun d1 => add_to_favorites d1 "logo design") = Except.ok d2 ∧
      add_to_favorites d2 "logo design" = Except.ok d2 ∧
      favCount d2 "logo design" = some 1 :=
  claim_C9_add_to_favorites_idempotent
    { favorites := [], saved_gigs := [], analysis_history := [], generated_gigs := [] }
    "logo design" (by decide)

/-- C10: on a valid JSON object state lacking one of the four
collection keys, the read of that collection still returns its empty
default, while every mutating operation on that collection raises
KeyError to the caller. -/
theorem claim_C10_missing_key_reads_default_mutations_raise
    (fields : List (String × JValue)) (kw : String) (v : JValue) :
    (fields.lookup "favorites" = none →
      get_favorites (DiskFile.content (JValue.obj fields)) = Except.ok (JValue.arr []) ∧
      add_to_favorites (DiskFile.content (JValue.obj fields)) kw
        = Except.error (PyError.keyError "favorites") ∧
      remove_from_favorites (DiskFile.content (JValue.obj fields)) kw
        = Except.error (PyError.keyError "favorites")) ∧
    (fields.lookup "saved_gigs" = none →
      get_saved_gigs (DiskFile.content (JValue.obj fields)) = Except.ok (JValue.obj []) ∧
      save_gig (DiskFile.content (JValue.obj fields)) kw v
        = Except.error (PyError.keyError "saved_gigs")) ∧
    (fields.lookup "analysis_history" = none →
      get_analysis_history (DiskFile.content (JValue.obj fields)) = Except.ok (JValue.obj []) ∧
      add_to_history (DiskFile.content (JValue.obj fields)) kw v
        = Except.error (PyError.keyError "analysis_history")) ∧
    (fields.lookup "generated_gigs" = none →
      get_generated_gigs (DiskFile.content (JValue.obj fields)) = Except.ok (JValue.obj []) ∧
      add_generated_gig (DiskFile.content (JValue.obj fields)) kw v
        = Except.error (PyError.keyError "generated_gigs")) := by
  refine ⟨?_, ?_, ?_, ?_⟩
  · intro h
    have hg : (JValue.obj fields).getItem "favorites"
        = Except.error (PyError.keyError "favorites") := by
      simp [JValue.getItem, h]
    refine ⟨?_, ?_, ?_⟩
    · simp [get_favorites, load_state, JValue.getDefault, h]
    · simp only [add_to_favorites, load_state]
      rw [hg]
      rfl
    · simp only [remove_from_favorites, load_state]
      rw [hg]
      rfl
  · intro h
    have hg : (JValue.obj fields).getItem "saved_gigs"
        = Except.error (PyError.keyError "saved_gigs") := by
      simp [JValue.getItem, h]
    refine ⟨?_, ?_⟩
    · simp [get_saved_gigs, load_state, JValue.getDefault, h]
    · simp only [save_gig, load_state]
      rw [hg]
      rfl
  · intro h
    have hg : (JValue.obj fields).getItem "analysis_history"
        = Except.error (PyError.keyError "analysis_history") := by
      simp [JValue.getItem, h]
    refine ⟨?_, ?_⟩
    · simp [get_analysis_history, load_state, JValue.getDefault, h]
    · simp only [add_to_history, load_state]
      rw [hg]
      rfl
  · intro h
    have hg : (JValue.obj fields).getItem "generated_gigs"
        = Except.error (PyError.keyError "generated_gigs") := by
      simp [JValue.getItem, h]
    refine ⟨?_, ?_⟩
    · simp [get_generated_gigs, load_state, JValue.getDefault, h]
    · simp only [add_generated_gig, load_state]
      rw [hg]
      rfl

/-- C10 witness: the empty JSON object as state: all four reads give
the empty defaults, all five mutators raise the matching KeyError. -/
theorem claim_C10_missing_key_witness :
    get_favorites (DiskFile.content (JValue.obj [])) = Except.ok (JValue.arr []) ∧
    add_to_favorites (DiskFile.content (JValue.obj [])) "logo design"
      = Except.error (PyError.keyError "favorites") ∧
    remove_from_favorites (DiskFile.content (JValue.obj [])) "logo design"
      = Except.error (PyError.keyError "favorites") ∧
    get_saved_gigs (DiskFile.content (JValue.obj [])) = Except.ok (JValue.obj []) ∧
    save_gig (DiskFile.content (JValue.obj [])) "logo design" JValue.null
      = Except.error (PyError.keyError "saved_gigs") ∧
    get_analysis_history (DiskFile.content (JValue.obj [])) = Except.ok (JValue.obj []) ∧
    add_to_history (DiskFile.content (JValue.obj [])) "logo design" JValue.null
      = Except.error (PyError.keyError "analysis_history") ∧
    get_generated_gigs (DiskFile.content (JValue.obj [])) = Except.ok (JValue.obj []) ∧
    add_generated_gig (DiskFile.content (JValue.obj [])) "logo design" JValue.null
      = Except.error (PyError.keyError "generated_gigs") := by
  have h := claim_C10_missing_key_reads_default_mutations_raise [] "logo design" JValue.null
  exact ⟨(h.1 rfl).1, (h.1 rfl).2.1, (h.1 rfl).2.2,
    (h.2.1 rfl).1, (h.2.1 rfl).2,
    (h.2.2.1 rfl).1, (h.2.2.1 rfl).2,
    (h.2.2.2 rfl).1, (h.2.2.2 rfl).2⟩
